import Mathlib

/-!
Shallow embedding of `manage_beamline/manage_beamline.py`.

Numbers handled by the module are embedded as `ℚ` (the module's own
arithmetic on settings, kinetic energies and momenta is plain field
arithmetic); the space-charge predicate additionally uses `np.pi` and
`np.sin`, so its derived field strengths live in `ℝ`.

A Python call either returns a value or raises; we model results as
`Res` (value or exception).  `logger.info` / `logger.warning` / `print`
output is modelled as a list of `LogLine` values carrying the quantities
that the f-strings interpolate, returned alongside the result.
-/

namespace ManageBeamlineSpec

/-- Exceptions the module can raise or handle. -/
inductive PyExc where
  | keyError : PyExc
  | indexError : PyExc
  | nameError (missing : String) : PyExc
  | timeoutExpired : PyExc
  | calledProcessError (cmd : String) (returncode : Int) (output : String) : PyExc
  deriving DecidableEq, Repr

/-- Values the predicate chain returns: Python `False` or an int sentinel. -/
inductive RVal where
  | pyBool (b : Bool)
  | pyInt (n : Int)
  deriving DecidableEq, Repr

/-- Result of a Python call: a returned value or a raised exception. -/
inductive Res where
  | val (v : RVal)
  | exc (e : PyExc)
  deriving DecidableEq, Repr

/-- The falsy sentinel `False` that a failing predicate returns. -/
def falseRes : Res := Res.val (RVal.pyBool false)

/-- One emitted log line, carrying the interpolated quantities. -/
inductive LogLine where
  | scQuantities (eF_gun eF_sc : ℝ)
  | scVerdict (pass : Bool)
  | negVelVerdict (pass : Bool)
  | monoQuantities (ke : List ℚ)
  | monoVerdict (pass : Bool)
  | finalQuantities (measured target : ℚ)
  | timeoutWarning
  | processFailure (cmd : String) (returncode : Int) (output : String)

/-- A fort diagnostic record: per-sample kinetic energy and average
longitudinal momentum columns (`KE`, `avgPz`). -/
structure Fort where
  KE : List ℚ
  avgPz : List ℚ

/-- The simulator handle: an active settings mapping plus the fort-file
accessors `getFort` and `getFort_z_pos` (external collaborators, treated
as opaque producers of tabular records). -/
structure ImpactTBeamline where
  settings : List (String × ℚ)
  getFort : ℕ → Fort
  getFort_z_pos : ℕ → List ℚ → Fort

/-- A positional argument of a wrapped call: either an `ImpactTBeamline`
instance or anything else. -/
inductive Arg where
  | beamline (bl : ImpactTBeamline)
  | other (n : ℕ)

/-- `isinstance(arg, ImpactTBeamline)` as an option projection. -/
def toBeamline : Arg → Option ImpactTBeamline
  | Arg.beamline b => some b
  | Arg.other _ => none

/-- `[arg for arg in args if isinstance(arg, ImpactTBeamline)][0]`:
`none` models the `IndexError` raised when the filtered list is empty. -/
def get_beamline_instance (args : List Arg) : Option ImpactTBeamline :=
  (args.filterMap toBeamline).head?

/-- A wrapped callable: positional args in, result plus emitted log lines out. -/
def PyFun : Type := List Arg → Res × List LogLine

/-- `np.diff`: successive differences of a list. -/
def npDiff : List ℚ → List ℚ
  | [] => []
  | [_] => []
  | a :: b :: rest => (b - a) :: npDiff (b :: rest)

/-- `np.deg2rad`. -/
noncomputable def deg2rad (x : ℝ) : ℝ := x * Real.pi / 180

/-- `eF_sc = (Q_TOT/8.85e-12/np.pi/rRMS**2)*1e-6` (MV/m). -/
noncomputable def eF_sc (Q_TOT rRMS : ℚ) : ℝ :=
  ((Q_TOT : ℝ) / 8.85e-12 / Real.pi / (rRMS : ℝ) ^ 2) * 1e-6

/-- `eF_gun = gun_amp*np.sin(np.deg2rad(gun_phase)-np.deg2rad(zero_crossing_phase))`. -/
noncomputable def eF_gun (gun_amp gun_phase zero_crossing_phase : ℚ) : ℝ :=
  (gun_amp : ℝ) * Real.sin (deg2rad (gun_phase : ℝ) - deg2rad (zero_crossing_phase : ℝ))

/-- Default `zero_crossing_phase` argument of `check_sc_limit_emission`. -/
def default_zero_crossing_phase : ℚ := -48.61939264802021

/-- Default `sc_factor` argument of `check_sc_limit_emission`. -/
def default_sc_factor : ℚ := 1.1

/-- Default `radius_name` argument of `check_sc_limit_emission`. -/
def default_radius_name : String := "distgen__r_dist:truncation_radius:value"

open Classical in
/-- The space-charge-limited-emission predicate decorator: reads
`GunAmp`, `GunPhase`, the truncation radius and `Qtotal` from the
beamline's settings (a missing key raises `KeyError`), logs the two
field strengths, and calls `func` exactly when
`eF_gun > sc_factor*eF_sc`, returning `False` otherwise. -/
noncomputable def check_sc_limit_emission (zero_crossing_phase sc_factor : ℚ)
    (radius_name : String) (func : PyFun) : PyFun := fun args =>
  match get_beamline_instance args with
  | none => (Res.exc PyExc.indexError, [])
  | some temp_beamline =>
    match temp_beamline.settings.lookup "GunAmp",
          temp_beamline.settings.lookup "GunPhase",
          temp_beamline.settings.lookup radius_name,
          temp_beamline.settings.lookup "Qtotal" with
    | some gun_amp, some gun_phase, some rRMS, some Q_TOT =>
      let sc := eF_sc Q_TOT rRMS
      let gun := eF_gun gun_amp gun_phase zero_crossing_phase
      if gun > (sc_factor : ℝ) * sc then
        let r := func args
        (r.1, LogLine.scQuantities gun sc :: LogLine.scVerdict true :: r.2)
      else
        (falseRes, [LogLine.scQuantities gun sc, LogLine.scVerdict false])
    | _, _, _, _ => (Res.exc PyExc.keyError, [])

/-- The no-negative-velocity predicate decorator: fails (returns `False`)
when any `avgPz` sample of fort 26 is negative, otherwise calls `func`. -/
def no_negative_velocity (func : PyFun) : PyFun := fun args =>
  match get_beamline_instance args with
  | none => (Res.exc PyExc.indexError, [])
  | some temp_beamline =>
    let z_df := temp_beamline.getFort 26
    if z_df.avgPz.any (fun p => decide (p < 0)) then
      (falseRes, [LogLine.negVelVerdict false])
    else
      let r := func args
      (r.1, LogLine.negVelVerdict true :: r.2)

/-- The monotonic-energy-gain predicate decorator: resamples fort 18 at
`sorted(z_pos)`, logs the KE values, and calls `func` exactly when
`np.all(np.diff(ke_vals) > -tol)`. -/
def monotonic_energy_gain (z_pos : List ℚ) (tol : ℚ) (func : PyFun) : PyFun := fun args =>
  match get_beamline_instance args with
  | none => (Res.exc PyExc.indexError, [])
  | some temp_beamline =>
    let ref_df := temp_beamline.getFort_z_pos 18 (z_pos.insertionSort (· ≤ ·))
    let ke_vals := ref_df.KE
    if (npDiff ke_vals).all (fun d => decide (d > -tol)) then
      let r := func args
      (r.1, LogLine.monoQuantities ke_vals :: LogLine.monoVerdict true :: r.2)
    else
      (falseRes, [LogLine.monoQuantities ke_vals, LogLine.monoVerdict false])

/-- The final-energy-match predicate decorator: reads the last KE sample
of fort 18 (`IndexError` on an empty record), logs it with the target,
and calls `func` exactly when `|measured - final_ke| < tol`; no Pass/Fail
verdict line is emitted. -/
def final_energy (final_ke : ℚ) (tol : ℚ) (func : PyFun) : PyFun := fun args =>
  match get_beamline_instance args with
  | none => (Res.exc PyExc.indexError, [])
  | some temp_beamline =>
    let ref_df := temp_beamline.getFort 18
    match ref_df.KE.getLast? with
    | none => (Res.exc PyExc.indexError, [])
    | some measured =>
      if |measured - final_ke| < tol then
        let r := func args
        (r.1, LogLine.finalQuantities measured final_ke :: r.2)
      else
        (falseRes, [LogLine.finalQuantities measured final_ke])

/-- The configuration object: the per-key editable value
`settings[key]['input']['value']` (the descriptor's remaining derivation
metadata is opaque to the core and not modelled), plus the external
derivation `gen()`, a pure function of the current editable values. -/
structure BeamlineConfiguration where
  settings : List (String × ℚ)
  gen : List (String × ℚ) → List (String × ℚ)

/-- The `ManageBeamline` class: couples a simulator handle to a
configuration object. -/
structure ManageBeamline where
  beamline : ImpactTBeamline
  beamline_config : BeamlineConfiguration

/-- `settings[key]['input']['value'] = val` for one key: overwrite the
value stored at an existing key (callers check existence first). -/
def setKey : List (String × ℚ) → String → ℚ → List (String × ℚ)
  | [], _, _ => []
  | (k', v') :: rest, k, v =>
    if k' = k then (k', v) :: rest else (k', v') :: setKey rest k v

/-- The write loop of `ManageBeamline.update`: each `(key, val)` of
`val_dict` in turn overwrites the stored value; looking up an
unregistered key raises `KeyError`, leaving the writes made so far in
place. -/
def writeVals : List (String × ℚ) → List (String × ℚ) →
    List (String × ℚ) × Option PyExc
  | s, [] => (s, none)
  | s, (k, v) :: rest =>
    if (s.lookup k).isSome then writeVals (setKey s k v) rest
    else (s, some PyExc.keyError)

/-- `ManageBeamline.update(val_dict)`: write each value into
`beamline_config.settings`, then `gen()` the derived mapping and assign
it to `beamline.settings`.  Returns the post-call object state and the
raised exception, if any (on a `KeyError` the derivation and assignment
are never reached). -/
def ManageBeamline.update (mb : ManageBeamline) (val_dict : List (String × ℚ)) :
    ManageBeamline × Option PyExc :=
  match writeVals mb.beamline_config.settings val_dict with
  | (s', none) =>
    let output_dict := mb.beamline_config.gen s'
    ({ beamline := { mb.beamline with settings := output_dict },
       beamline_config := { mb.beamline_config with settings := s' } }, none)
  | (s', some e) =>
    ({ mb with beamline_config := { mb.beamline_config with settings := s' } }, some e)

/-- `ManageBeamline.get(key)`: read the stored editable value
(`none` models the `KeyError` on an unregistered key). -/
def ManageBeamline.get (mb : ManageBeamline) (key : String) : Option ℚ :=
  mb.beamline_config.settings.lookup key

/-- Names bound at module scope by the import block of
`manage_beamline.py`; note that `subprocess` is never imported. -/
def module_imports : List String :=
  ["inspect", "functools", "Callable", "np", "logging", "copy",
   "ImpactTBeamline", "try_except_timeout", "block_negative_velocity",
   "BeamlineConfiguration", "ImpactIN", "logger"]

/-- The module-level `no_timeout` decorator, as written: pass a normal
return through; on an exception, Python first evaluates the handler
clause `except subprocess.TimeoutExpired`, which itself raises
`NameError` when the name `subprocess` is not bound at module scope. -/
def no_timeout (body : Except PyExc Res) : Res × List LogLine :=
  match body with
  | Except.ok r => (r, [])
  | Except.error e =>
    if "subprocess" ∈ module_imports then
      match e with
      | PyExc.timeoutExpired =>
        (Res.val (RVal.pyInt (-1)), [LogLine.timeoutWarning])
      | PyExc.calledProcessError cmd rc out =>
        (Res.exc (PyExc.calledProcessError cmd rc out),
         [LogLine.processFailure cmd rc out])
      | e' => (Res.exc e', [])
    else (Res.exc (PyExc.nameError "subprocess"), [])

/-- The undecorated body of `ManageBeamline.run`: call
`self.beamline.run()` (whose outcome is the argument: a normal return or
a raised exception) and return the success sentinel `1`. -/
def run_body : Except PyExc Unit → Res
  | Except.ok _ => Res.val (RVal.pyInt 1)
  | Except.error e => Res.exc e

/-- Modelled from the spec: `try_except_timeout` is imported from
`impact_t_beamline`, a module not present in the repository's sources.
Per the spec's `runSimulation` contract: "On timeout, returns the
'timed out' sentinel and logs a warning; does not raise.  On a
non-zero/abnormal process exit, re-raises after logging diagnostic
output (command, exit code, captured output) ...  On success returns
success sentinel"; "only `SimulatorTimeout` is absorbed and converted to
a sentinel; all other exceptional conditions propagate unchanged". -/
def try_except_timeout (body : Except PyExc Unit → Res)
    (outcome : Except PyExc Unit) : Res × List LogLine :=
  match body outcome with
  | Res.exc PyExc.timeoutExpired =>
    (Res.val (RVal.pyInt (-1)), [LogLine.timeoutWarning])
  | Res.exc (PyExc.calledProcessError cmd rc out) =>
    (Res.exc (PyExc.calledProcessError cmd rc out),
     [LogLine.processFailure cmd rc out])
  | r => (r, [])

/-- `ManageBeamline.run`, i.e. `run_body` under the `try_except_timeout`
decorator, applied to the outcome of the underlying simulator run. -/
def ManageBeamline.run (outcome : Except PyExc Unit) : Res × List LogLine :=
  try_except_timeout run_body outcome

/-- The accumulated effect of the write loop on the stored values:
fold `setKey` over the written pairs. -/
def applyWrites (s : List (String × ℚ)) (writes : List (String × ℚ)) :
    List (String × ℚ) :=
  writes.foldl (fun acc kv => setKey acc kv.1 kv.2) s

/-- Classifies a log line as a Pass/Fail verdict line. -/
def isVerdictLine : LogLine → Bool
  | LogLine.scVerdict _ => true
  | LogLine.negVelVerdict _ => true
  | LogLine.monoVerdict _ => true
  | _ => false

/-- Classifies a log line as one carrying computed physical quantities. -/
def isQuantitiesLine : LogLine → Bool
  | LogLine.scQuantities _ _ => true
  | LogLine.monoQuantities _ => true
  | LogLine.finalQuantities _ _ => true
  | _ => false

/-- A concrete simulator handle whose fort accessors return fixed records. -/
def mkBL (ke avgPz : List ℚ) (settings : List (String × ℚ)) : ImpactTBeamline :=
  { settings := settings
    getFort := fun _ => { KE := ke, avgPz := avgPz }
    getFort_z_pos := fun _ _ => { KE := ke, avgPz := avgPz } }

/-- A concrete terminal action returning the success sentinel `1`. -/
def act1 : PyFun := fun _ => (Res.val (RVal.pyInt 1), [])

section PathLemmas

lemma check_sc_pass_eq (zcp scf : ℚ) (rn : String) (args : List Arg)
    (bl : ImpactTBeamline) (amp phase rRMS Q : ℚ)
    (h1 : get_beamline_instance args = some bl)
    (h2 : bl.settings.lookup "GunAmp" = some amp)
    (h3 : bl.settings.lookup "GunPhase" = some phase)
    (h4 : bl.settings.lookup rn = some rRMS)
    (h5 : bl.settings.lookup "Qtotal" = some Q)
    (hc : eF_gun amp phase zcp > (scf : ℝ) * eF_sc Q rRMS) (func : PyFun) :
    check_sc_limit_emission zcp scf rn func args =
      ((func args).1,
        LogLine.scQuantities (eF_gun amp phase zcp) (eF_sc Q rRMS) ::
          LogLine.scVerdict true :: (func args).2) := by
  simp only [check_sc_limit_emission, h1, h2, h3, h4, h5]
  rw [if_pos hc]

lemma check_sc_fail_eq (zcp scf : ℚ) (rn : String) (args : List Arg)
    (bl : ImpactTBeamline) (amp phase rRMS Q : ℚ)
    (h1 : get_beamline_instance args = some bl)
    (h2 : bl.settings.lookup "GunAmp" = some amp)
    (h3 : bl.settings.lookup "GunPhase" = some phase)
    (h4 : bl.settings.lookup rn = some rRMS)
    (h5 : bl.settings.lookup "Qtotal" = some Q)
    (hc : ¬ eF_gun amp phase zcp > (scf : ℝ) * eF_sc Q rRMS) (func : PyFun) :
    check_sc_limit_emission zcp scf rn func args =
      (falseRes,
        [LogLine.scQuantities (eF_gun amp phase zcp) (eF_sc Q rRMS),
         LogLine.scVerdict false]) := by
  simp only [check_sc_limit_emission, h1, h2, h3, h4, h5]
  rw [if_neg hc]

lemma no_negative_velocity_fail_eq (args : List Arg) (bl : ImpactTBeamline)
    (h1 : get_beamline_instance args = some bl)
    (hneg : ((bl.getFort 26).avgPz.any fun p => decide (p < 0)) = true)
    (func : PyFun) :
    no_negative_velocity func args = (falseRes, [LogLine.negVelVerdict false]) := by
  simp only [no_negative_velocity, h1, hneg, if_true]

lemma no_negative_velocity_pass_eq (args : List Arg) (bl : ImpactTBeamline)
    (h1 : get_beamline_instance args = some bl)
    (hneg : ((bl.getFort 26).avgPz.any fun p => decide (p < 0)) = false)
    (func : PyFun) :
    no_negative_velocity func args =
      ((func args).1, LogLine.negVelVerdict true :: (func args).2) := by
  simp only [no_negative_velocity, h1, hneg, Bool.false_eq_true, if_false]

lemma monotonic_pass_eq (z_pos : List ℚ) (tol : ℚ) (args : List Arg)
    (bl : ImpactTBeamline)
    (h1 : get_beamline_instance args = some bl)
    (hc : ((npDiff (bl.getFort_z_pos 18 (z_pos.insertionSort (· ≤ ·))).KE).all
        fun d => decide (d > -tol)) = true)
    (func : PyFun) :
    monotonic_energy_gain z_pos tol func args =
      ((func args).1,
        LogLine.monoQuantities (bl.getFort_z_pos 18 (z_pos.insertionSort (· ≤ ·))).KE ::
          LogLine.monoVerdict true :: (func args).2) := by
  simp only [monotonic_energy_gain, h1, hc, if_true]

lemma monotonic_fail_eq (z_pos : List ℚ) (tol : ℚ) (args : List Arg)
    (bl : ImpactTBeamline)
    (h1 : get_beamline_instance args = some bl)
    (hc : ((npDiff (bl.getFort_z_pos 18 (z_pos.insertionSort (· ≤ ·))).KE).all
        fun d => decide (d > -tol)) = false)
    (func : PyFun) :
    monotonic_energy_gain z_pos tol func args =
      (falseRes,
        [LogLine.monoQuantities (bl.getFort_z_pos 18 (z_pos.insertionSort (· ≤ ·))).KE,
         LogLine.monoVerdict false]) := by
  simp only [monotonic_energy_gain, h1, hc, Bool.false_eq_true, if_false]

lemma final_energy_pass_eq (final_ke tol : ℚ) (args : List Arg)
    (bl : ImpactTBeamline) (measured : ℚ)
    (h1 : get_beamline_instance args = some bl)
    (h2 : (bl.getFort 18).KE.getLast? = some measured)
    (hc : |measured - final_ke| < tol) (func : PyFun) :
    final_energy final_ke tol func args =
      ((func args).1, LogLine.finalQuantities measured final_ke :: (func args).2) := by
  simp only [final_energy, h1, h2]
  rw [if_pos hc]

lemma final_energy_fail_eq (final_ke tol : ℚ) (args : List Arg)
    (bl : ImpactTBeamline) (measured : ℚ)
    (h1 : get_beamline_instance args = some bl)
    (h2 : (bl.getFort 18).KE.getLast? = some measured)
    (hc : ¬ |measured - final_ke| < tol) (func : PyFun) :
    final_energy final_ke tol func args =
      (falseRes, [LogLine.finalQuantities measured final_ke]) := by
  simp only [final_energy, h1, h2]
  rw [if_neg hc]

lemma check_sc_no_ctx (zcp scf : ℚ) (rn : String) (args : List Arg) (func : PyFun)
    (h : get_beamline_instance args = none) :
    check_sc_limit_emission zcp scf rn func args = (Res.exc PyExc.indexError, []) := by
  simp only [check_sc_limit_emission, h]

lemma no_negative_velocity_no_ctx (args : List Arg) (func : PyFun)
    (h : get_beamline_instance args = none) :
    no_negative_velocity func args = (Res.exc PyExc.indexError, []) := by
  simp only [no_negative_velocity, h]

lemma monotonic_no_ctx (z_pos : List ℚ) (tol : ℚ) (args : List Arg) (func : PyFun)
    (h : get_beamline_instance args = none) :
    monotonic_energy_gain z_pos tol func args = (Res.exc PyExc.indexError, []) := by
  simp only [monotonic_energy_gain, h]

lemma final_energy_no_ctx (final_ke tol : ℚ) (args : List Arg) (func : PyFun)
    (h : get_beamline_instance args = none) :
    final_energy final_ke tol func args = (Res.exc PyExc.indexError, []) := by
  simp only [final_energy, h]

end PathLemmas

section ListLemmas

lemma gbi_eq_none (args : List Arg)
    (h : (args.all fun a => (toBeamline a).isNone) = true) :
    get_beamline_instance args = none := by
  have hnil : args.filterMap toBeamline = [] := by
    rw [List.filterMap_eq_nil_iff]
    intro a ha
    have := List.all_eq_true.mp h a ha
    exact Option.isNone_iff_eq_none.mp this
  simp [get_beamline_instance, hnil]

lemma gbi_first (pre : List Arg) (b : ImpactTBeamline) (rest : List Arg)
    (h : (pre.all fun a => (toBeamline a).isNone) = true) :
    get_beamline_instance (pre ++ Arg.beamline b :: rest) = some b := by
  have hnil : pre.filterMap toBeamline = [] := by
    rw [List.filterMap_eq_nil_iff]
    intro a ha
    have := List.all_eq_true.mp h a ha
    exact Option.isNone_iff_eq_none.mp this
  simp [get_beamline_instance, List.filterMap_append, hnil, List.filterMap_cons,
    toBeamline]

lemma lookup_setKey_isSome (s : List (String × ℚ)) (k : String) (v : ℚ)
    (k' : String) :
    ((setKey s k v).lookup k').isSome = (s.lookup k').isSome := by
  induction s with
  | nil => rfl
  | cons hd tl ih =>
    obtain ⟨a, b⟩ := hd
    by_cases hak : a = k
    · subst hak
      by_cases hk' : k' = a
      · subst hk'
        simp [setKey, List.lookup]
      · have hb : (k' == a) = false := beq_eq_false_iff_ne.mpr hk'
        simp [setKey, List.lookup, hb]
    · by_cases hk' : k' = a
      · subst hk'
        simp [setKey, List.lookup, hak]
      · have hb : (k' == a) = false := beq_eq_false_iff_ne.mpr hk'
        simp [setKey, List.lookup, hak, hb, ih]

lemma lookup_setKey_none (s : List (String × ℚ)) (k : String) (v : ℚ)
    (k' : String) (h : s.lookup k' = none) :
    (setKey s k v).lookup k' = none := by
  have := lookup_setKey_isSome s k v k'
  rw [h] at this
  simp only [Option.isSome_none] at this
  exact Option.not_isSome_iff_eq_none.mp (by simp [this])

lemma writeVals_all_registered (vd : List (String × ℚ)) (s : List (String × ℚ))
    (h : ∀ kv ∈ vd, (s.lookup kv.1).isSome = true) :
    writeVals s vd = (applyWrites s vd, none) := by
  induction vd generalizing s with
  | nil => simp [writeVals, applyWrites]
  | cons hd tl ih =>
    obtain ⟨k, v⟩ := hd
    have hk : (s.lookup k).isSome = true := h (k, v) (by simp)
    simp only [writeVals, hk, if_true, applyWrites, List.foldl_cons]
    exact ih (setKey s k v) fun kv hkv => by
      rw [lookup_setKey_isSome]
      exact h kv (List.mem_cons_of_mem _ hkv)

lemma writeVals_bad_key (pre : List (String × ℚ)) (s : List (String × ℚ))
    (k : String) (v : ℚ) (rest : List (String × ℚ))
    (hpre : ∀ kv ∈ pre, (s.lookup kv.1).isSome = true)
    (hk : s.lookup k = none) :
    writeVals s (pre ++ (k, v) :: rest) =
      (applyWrites s pre, some PyExc.keyError) := by
  induction pre generalizing s with
  | nil =>
    simp [writeVals, applyWrites, hk]
  | cons hd tl ih =>
    obtain ⟨k', v'⟩ := hd
    have hk' : (s.lookup k').isSome = true := hpre (k', v') (by simp)
    simp only [List.cons_append, writeVals, hk', if_true, applyWrites,
      List.foldl_cons]
    exact ih (setKey s k' v')
      (fun kv hkv => by
        rw [lookup_setKey_isSome]
        exact hpre kv (List.mem_cons_of_mem _ hkv))
      (lookup_setKey_none s k' v' k hk)

end ListLemmas

/-- A concrete `ManageBeamline` object used to exercise the update theorems. -/
def mbW : ManageBeamline :=
  { beamline := mkBL [] [] []
    beamline_config := { settings := [("a", 1), ("b", 2)], gen := fun s => s } }

/-- C1: after every call to `ManageBeamline.update(val_dict)` whose keys are
all registered, no exception is raised and the simulator's active settings
mapping (`beamline.settings`) equals the mapping produced by
`beamline_config.gen()` from the just-updated descriptor values. -/
theorem C1_update_settings_invariant (mb : ManageBeamline)
    (val_dict : List (String × ℚ))
    (h : ∀ kv ∈ val_dict, (mb.beamline_config.settings.lookup kv.1).isSome = true) :
    (mb.update val_dict).2 = none ∧
    (mb.update val_dict).1.beamline.settings =
      mb.beamline_config.gen (mb.update val_dict).1.beamline_config.settings := by
  have hw := writeVals_all_registered val_dict mb.beamline_config.settings h
  simp [ManageBeamline.update, hw]

/-- Witness for C1 at a concrete object and update dictionary. -/
theorem C1_witness :
    (mbW.update [("a", 5)]).2 = none ∧
    (mbW.update [("a", 5)]).1.beamline.settings =
      mbW.beamline_config.gen (mbW.update [("a", 5)]).1.beamline_config.settings :=
  C1_update_settings_invariant mbW [("a", 5)] (by decide)

/-- C8: with `gen()` a pure function of the stored editable values (as it is
in this embedding), `update({})` overwrites nothing and leaves the simulator's
settings mapping value-identical to the previous derivation output: the whole
object is unchanged. -/
theorem C8_empty_update_noop (mb : ManageBeamline)
    (h : mb.beamline.settings = mb.beamline_config.gen mb.beamline_config.settings) :
    mb.update [] = (mb, none) := by
  obtain ⟨⟨bset, bf, bfz⟩, ⟨cset, gen⟩⟩ := mb
  dsimp only at h
  simp [ManageBeamline.update, writeVals, ← h]

/-- A concrete `ManageBeamline` whose simulator settings are the current
derivation output (the state every successful `update` leaves behind). -/
def mbDerived : ManageBeamline :=
  { beamline := mkBL [] [] [("a", 1)]
    beamline_config := { settings := [("a", 1)], gen := fun s => s } }

/-- Witness for C8 at a concrete object. -/
theorem C8_witness : mbDerived.update [] = (mbDerived, none) :=
  C8_empty_update_noop mbDerived rfl

/-- C10: `update` is not atomic on error: on a `val_dict` whose keys are
registered up to an unregistered key `k`, the call raises `KeyError`, the
descriptor values of every key before `k` are already overwritten, and the
simulator's settings mapping is left unchanged because `gen()` and the
assignment are never reached. -/
theorem C10_update_not_atomic (mb : ManageBeamline) (pre : List (String × ℚ))
    (k : String) (v : ℚ) (rest : List (String × ℚ))
    (hpre : ∀ kv ∈ pre, (mb.beamline_config.settings.lookup kv.1).isSome = true)
    (hk : mb.beamline_config.settings.lookup k = none) :
    (mb.update (pre ++ (k, v) :: rest)).2 = some PyExc.keyError ∧
    (mb.update (pre ++ (k, v) :: rest)).1.beamline = mb.beamline ∧
    (mb.update (pre ++ (k, v) :: rest)).1.beamline_config.settings =
      applyWrites mb.beamline_config.settings pre := by
  have hw := writeVals_bad_key pre mb.beamline_config.settings k v rest hpre hk
  simp [ManageBeamline.update, hw]

/-- Witness for C10 at a concrete object and update dictionary. -/
theorem C10_witness :
    (mbW.update ([("a", 5)] ++ ("zz", 9) :: [])).2 = some PyExc.keyError ∧
    (mbW.update ([("a", 5)] ++ ("zz", 9) :: [])).1.beamline = mbW.beamline ∧
    (mbW.update ([("a", 5)] ++ ("zz", 9) :: [])).1.beamline_config.settings =
      applyWrites mbW.beamline_config.settings [("a", 5)] :=
  C10_update_not_atomic mbW [("a", 5)] "zz" 9 [] (by decide) (by decide)

/-- C5: the bounded run operation absorbs only a simulator timeout: on
timeout it logs a warning and returns the `-1` sentinel without raising; on
abnormal process exit it emits the command, exit code and captured output and
re-raises; on success it returns the sentinel `1`; every exception other than
the timeout reaches the caller unconverted.  (`try_except_timeout` is
modelled from the spec, being imported from a module outside this
repository's sources.) -/
theorem C5_run_timeout_semantics :
    ManageBeamline.run (Except.error PyExc.timeoutExpired) =
      (Res.val (RVal.pyInt (-1)), [LogLine.timeoutWarning]) ∧
    (∀ cmd rc out,
      ManageBeamline.run (Except.error (PyExc.calledProcessError cmd rc out)) =
        (Res.exc (PyExc.calledProcessError cmd rc out),
         [LogLine.processFailure cmd rc out])) ∧
    ManageBeamline.run (Except.ok ()) = (Res.val (RVal.pyInt 1), []) ∧
    (∀ e : PyExc, e ≠ PyExc.timeoutExpired →
      (ManageBeamline.run (Except.error e)).1 = Res.exc e) := by
  refine ⟨rfl, fun cmd rc out => rfl, rfl, fun e he => ?_⟩
  cases e with
  | keyError => rfl
  | indexError => rfl
  | nameError m => rfl
  | timeoutExpired => exact absurd rfl he
  | calledProcessError cmd rc out => rfl

/-- Witness for C5: a non-timeout exception propagates unconverted. -/
theorem C5_witness :
    PyExc.keyError ≠ PyExc.timeoutExpired ∧
    (ManageBeamline.run (Except.error PyExc.keyError)).1 = Res.exc PyExc.keyError :=
  ⟨by decide, C5_run_timeout_semantics.2.2.2 PyExc.keyError (by decide)⟩

/-- C9: the module never imports `subprocess`, so whenever a callable wrapped
by `no_timeout` raises, evaluating the handler clause
`except subprocess.TimeoutExpired` itself raises `NameError`; `no_timeout`
can never return the `-1` sentinel, log the timeout warning, or re-raise a
`CalledProcessError` — every exception surfaces as a `NameError`. -/
theorem C9_no_timeout_raises_nameError :
    "subprocess" ∉ module_imports ∧
    (∀ e : PyExc, no_timeout (Except.error e) =
      (Res.exc (PyExc.nameError "subprocess"), [])) ∧
    (∀ e : PyExc, (no_timeout (Except.error e)).1 ≠ Res.val (RVal.pyInt (-1))) ∧
    (∀ e : PyExc, (no_timeout (Except.error e)).2 ≠ [LogLine.timeoutWarning]) ∧
    (∀ e : PyExc, ∀ cmd rc out, (no_timeout (Except.error e)).1 ≠
      Res.exc (PyExc.calledProcessError cmd rc out)) := by
  have hnot : ¬ ("subprocess" ∈ module_imports) := by decide
  have hmain : ∀ e : PyExc, no_timeout (Except.error e) =
      (Res.exc (PyExc.nameError "subprocess"), []) := by
    intro e
    simp [no_timeout, hnot]
  refine ⟨hnot, hmain, fun e => ?_, fun e => ?_, fun e cmd rc out => ?_⟩ <;>
    simp [hmain e]

/-- C6: each predicate wrapper locates its context by scanning positional
arguments: with no `ImpactTBeamline` among them the call fails with the
context-lookup (index) error for every wrapper, and with several matches the
first one is used rather than failing. -/
theorem C6_context_extraction :
    (∀ args : List Arg, (args.all fun a => (toBeamline a).isNone) = true →
      get_beamline_instance args = none ∧
      (∀ func, no_negative_velocity func args = (Res.exc PyExc.indexError, [])) ∧
      (∀ fke tol func,
        final_energy fke tol func args = (Res.exc PyExc.indexError, [])) ∧
      (∀ zp tol func,
        monotonic_energy_gain zp tol func args = (Res.exc PyExc.indexError, [])) ∧
      (∀ zcp scf rn func,
        check_sc_limit_emission zcp scf rn func args =
          (Res.exc PyExc.indexError, []))) ∧
    (∀ (pre : List Arg) (b : ImpactTBeamline) (rest : List Arg),
      (pre.all fun a => (toBeamline a).isNone) = true →
      get_beamline_instance (pre ++ Arg.beamline b :: rest) = some b) := by
  constructor
  · intro args h
    have hn := gbi_eq_none args h
    exact ⟨hn, fun func => no_negative_velocity_no_ctx args func hn,
      fun fke tol func => final_energy_no_ctx fke tol args func hn,
      fun zp tol func => monotonic_no_ctx zp tol args func hn,
      fun zcp scf rn func => check_sc_no_ctx zcp scf rn args func hn⟩
  · exact gbi_first

/-- Two distinct concrete simulator handles, for the ambiguity case. -/
def blA : ImpactTBeamline := mkBL [1] [] []

/-- Second concrete simulator handle. -/
def blB : ImpactTBeamline := mkBL [2] [] []

/-- Witness for C6: zero matches fail, and of two matches the first wins. -/
theorem C6_witness :
    get_beamline_instance [Arg.other 0] = none ∧
    no_negative_velocity act1 [Arg.other 0] = (Res.exc PyExc.indexError, []) ∧
    get_beamline_instance [Arg.other 0, Arg.beamline blA, Arg.beamline blB] =
      some blA :=
  ⟨(C6_context_extraction.1 [Arg.other 0] (by decide)).1,
   (C6_context_extraction.1 [Arg.other 0] (by decide)).2.1 act1,
   C6_context_extraction.2 [Arg.other 0] blA [Arg.beamline blB] (by decide)⟩

/-- A concrete simulator handle whose final fort-18 KE sample is far from
any target, so the final-energy predicate fails on it. -/
def blLow : ImpactTBeamline := mkBL [0] [] []

/-- C2: whenever a predicate's condition does not hold, the wrapped call
returns the falsy sentinel `False` and the wrapped callable is never
invoked — its result is a fixed value independent of `func`; in the chain
`final_energy (no_negative_velocity run)`, a Fail of the outer
`final_energy` yields that fixed value for every inner action. -/
theorem C2_short_circuit :
    (∀ (zcp scf : ℚ) (rn : String) (args : List Arg) (bl : ImpactTBeamline)
      (amp phase rRMS Q : ℚ),
      get_beamline_instance args = some bl →
      bl.settings.lookup "GunAmp" = some amp →
      bl.settings.lookup "GunPhase" = some phase →
      bl.settings.lookup rn = some rRMS →
      bl.settings.lookup "Qtotal" = some Q →
      ¬ eF_gun amp phase zcp > (scf : ℝ) * eF_sc Q rRMS →
      ∀ func, check_sc_limit_emission zcp scf rn func args =
        (falseRes,
          [LogLine.scQuantities (eF_gun amp phase zcp) (eF_sc Q rRMS),
           LogLine.scVerdict false])) ∧
    (∀ (args : List Arg) (bl : ImpactTBeamline),
      get_beamline_instance args = some bl →
      ((bl.getFort 26).avgPz.any fun p => decide (p < 0)) = true →
      ∀ func, no_negative_velocity func args =
        (falseRes, [LogLine.negVelVerdict false])) ∧
    (∀ (z_pos : List ℚ) (tol : ℚ) (args : List Arg) (bl : ImpactTBeamline),
      get_beamline_instance args = some bl →
      ((npDiff (bl.getFort_z_pos 18 (z_pos.insertionSort (· ≤ ·))).KE).all
          fun d => decide (d > -tol)) = false →
      ∀ func, monotonic_energy_gain z_pos tol func args =
        (falseRes,
          [LogLine.monoQuantities
            (bl.getFort_z_pos 18 (z_pos.insertionSort (· ≤ ·))).KE,
           LogLine.monoVerdict false])) ∧
    (∀ (fke tol : ℚ) (args : List Arg) (bl : ImpactTBeamline) (m : ℚ),
      get_beamline_instance args = some bl →
      (bl.getFort 18).KE.getLast? = some m →
      ¬ |m - fke| < tol →
      ∀ func, final_energy fke tol func args =
        (falseRes, [LogLine.finalQuantities m fke])) ∧
    (∀ (fke tol : ℚ) (args : List Arg) (bl : ImpactTBeamline) (m : ℚ),
      get_beamline_instance args = some bl →
      (bl.getFort 18).KE.getLast? = some m →
      ¬ |m - fke| < tol →
      ∀ run_act, final_energy fke tol (no_negative_velocity run_act) args =
        (falseRes, [LogLine.finalQuantities m fke])) := by
  refine ⟨?_, ?_, ?_, ?_, ?_⟩
  · exact fun zcp scf rn args bl amp phase rRMS Q h1 h2 h3 h4 h5 hc func =>
      check_sc_fail_eq zcp scf rn args bl amp phase rRMS Q h1 h2 h3 h4 h5 hc func
  · exact fun args bl h1 hneg func =>
      no_negative_velocity_fail_eq args bl h1 hneg func
  · exact fun z_pos tol args bl h1 hc func =>
      monotonic_fail_eq z_pos tol args bl h1 hc func
  · exact fun fke tol args bl m h1 h2 hc func =>
      final_energy_fail_eq fke tol args bl m h1 h2 hc func
  · exact fun fke tol args bl m h1 h2 hc run_act =>
      final_energy_fail_eq fke tol args bl m h1 h2 hc (no_negative_velocity run_act)

/-- Witness for C2: the chain `final_energy (no_negative_velocity act1)` on a
failing outer predicate returns `False` with only the outer predicate's log
line — the inner stage leaves no trace. -/
theorem C2_witness :
    ¬ |(0 : ℚ) - 10| < 1 ∧
    final_energy 10 1 (no_negative_velocity act1) [Arg.beamline blLow] =
      (falseRes, [LogLine.finalQuantities 0 10]) :=
  ⟨by rw [abs_sub_lt_iff]; norm_num,
   C2_short_circuit.2.2.2.2 10 1 [Arg.beamline blLow] blLow 0 rfl rfl
     (by rw [abs_sub_lt_iff]; norm_num) act1⟩

/-- A concrete simulator handle with a KE dip of exactly the tolerance. -/
def blDip : ImpactTBeamline := mkBL [1, 0] [] []

/-- Counterexample to C3 as stated: with KE record `[1, 0]` and `tol = 1`,
every successive delta is `≥ -tol` (the delta is exactly `-tol`), yet the
predicate fails and returns `False` instead of invoking the wrapped action:
the source compares with strict `>`, not `≥`. -/
theorem C3_counterexample :
    ((npDiff (blDip.getFort_z_pos 18 ([0].insertionSort (· ≤ ·))).KE).all
      fun d => decide (d ≥ -(1 : ℚ))) = true ∧
    monotonic_energy_gain [0] 1 act1 [Arg.beamline blDip] =
      (falseRes, [LogLine.monoQuantities [1, 0], LogLine.monoVerdict false]) ∧
    act1 [Arg.beamline blDip] = (Res.val (RVal.pyInt 1), []) ∧
    falseRes ≠ Res.val (RVal.pyInt 1) := by
  refine ⟨?_, ?_, rfl, by decide⟩
  · simp [blDip, mkBL, npDiff]
  · have h := monotonic_fail_eq [0] 1 [Arg.beamline blDip] blDip rfl ?_ act1
    · exact h
    · rw [Bool.eq_false_iff]
      simp [blDip, mkBL, npDiff]

/-- C3 (amended): the monotonic-energy-gain predicate looks up fort-18
records at the positions sorted ascending and passes exactly when every
successive kinetic-energy delta is strictly greater than `-tol` (a delta of
exactly `-tol` fails); KE `[1, 2, 3]` with `tol = 0` passes, `[1, 0.99, 3]`
with `tol = 0.005` fails, and `[1, 0.99, 3]` with `tol = 0.02` passes. -/
theorem C3_monotonic_strict (z_pos : List ℚ) (tol : ℚ) (args : List Arg)
    (bl : ImpactTBeamline) (h1 : get_beamline_instance args = some bl) :
    (((npDiff (bl.getFort_z_pos 18 (z_pos.insertionSort (· ≤ ·))).KE).all
        fun d => decide (d > -tol)) = true →
      ∀ func, monotonic_energy_gain z_pos tol func args =
        ((func args).1,
          LogLine.monoQuantities
            (bl.getFort_z_pos 18 (z_pos.insertionSort (· ≤ ·))).KE ::
            LogLine.monoVerdict true :: (func args).2)) ∧
    (((npDiff (bl.getFort_z_pos 18 (z_pos.insertionSort (· ≤ ·))).KE).all
        fun d => decide (d > -tol)) = false →
      ∀ func, monotonic_energy_gain z_pos tol func args =
        (falseRes,
          [LogLine.monoQuantities
            (bl.getFort_z_pos 18 (z_pos.insertionSort (· ≤ ·))).KE,
           LogLine.monoVerdict false])) ∧
    (monotonic_energy_gain [0] 0 act1 [Arg.beamline (mkBL [1, 2, 3] [] [])]).1 =
      Res.val (RVal.pyInt 1) ∧
    (monotonic_energy_gain [0] 0.005 act1
      [Arg.beamline (mkBL [1, 0.99, 3] [] [])]).1 = falseRes ∧
    (monotonic_energy_gain [0] 0.02 act1
      [Arg.beamline (mkBL [1, 0.99, 3] [] [])]).1 = Res.val (RVal.pyInt 1) := by
  refine ⟨fun hc func => monotonic_pass_eq z_pos tol args bl h1 hc func,
    fun hc func => monotonic_fail_eq z_pos tol args bl h1 hc func, ?_, ?_, ?_⟩
  · have h := monotonic_pass_eq [0] 0 [Arg.beamline (mkBL [1, 2, 3] [] [])]
      (mkBL [1, 2, 3] [] []) rfl ?_ act1
    · rw [h]
      rfl
    · simp [mkBL, npDiff]
      norm_num
  · have h := monotonic_fail_eq [0] 0.005 [Arg.beamline (mkBL [1, 0.99, 3] [] [])]
      (mkBL [1, 0.99, 3] [] []) rfl ?_ act1
    · rw [h]
    · rw [Bool.eq_false_iff]
      simp [mkBL, npDiff]
      norm_num
  · have h := monotonic_pass_eq [0] 0.02 [Arg.beamline (mkBL [1, 0.99, 3] [] [])]
      (mkBL [1, 0.99, 3] [] []) rfl ?_ act1
    · rw [h]
      rfl
    · simp [mkBL, npDiff]
      norm_num

/-- Witness for C3 (amended) at a strictly increasing KE record. -/
theorem C3_witness :
    monotonic_energy_gain [0] 1 act1 [Arg.beamline (mkBL [1, 2, 3] [] [])] =
      ((act1 [Arg.beamline (mkBL [1, 2, 3] [] [])]).1,
        LogLine.monoQuantities
          ((mkBL [1, 2, 3] [] []).getFort_z_pos 18 ([0].insertionSort (· ≤ ·))).KE ::
          LogLine.monoVerdict true ::
          (act1 [Arg.beamline (mkBL [1, 2, 3] [] [])]).2) :=
  (C3_monotonic_strict [0] 1 [Arg.beamline (mkBL [1, 2, 3] [] [])]
    (mkBL [1, 2, 3] [] []) rfl).1 (by simp [mkBL, npDiff]; norm_num) act1

/-- C4: the space-charge predicate computes
`eF_sc = Qtotal/(8.85e-12*pi*radius^2)*1e-6` and
`eF_gun = GunAmp*sin(deg2rad(GunPhase)-deg2rad(zero_crossing_phase))`, and
passes exactly when `eF_gun > sc_factor*eF_sc` with strict inequality
(equality fails); with `gun_phase = zero_crossing_phase` it fails for every
positive charge and radius (and nonnegative `sc_factor`, as the default 1.1
is), and with zero charge it passes whenever `eF_gun > 0`. -/
theorem C4_space_charge (zcp scf : ℚ) (rn : String) (args : List Arg)
    (bl : ImpactTBeamline) (amp phase rRMS Q : ℚ)
    (h1 : get_beamline_instance args = some bl)
    (h2 : bl.settings.lookup "GunAmp" = some amp)
    (h3 : bl.settings.lookup "GunPhase" = some phase)
    (h4 : bl.settings.lookup rn = some rRMS)
    (h5 : bl.settings.lookup "Qtotal" = some Q) :
    eF_sc Q rRMS = (Q : ℝ) / (8.85e-12 * Real.pi * (rRMS : ℝ) ^ 2) * 1e-6 ∧
    eF_gun amp phase zcp =
      (amp : ℝ) * Real.sin (((phase : ℝ) - (zcp : ℝ)) * Real.pi / 180) ∧
    (eF_gun amp phase zcp > (scf : ℝ) * eF_sc Q rRMS →
      ∀ func, check_sc_limit_emission zcp scf rn func args =
        ((func args).1,
          LogLine.scQuantities (eF_gun amp phase zcp) (eF_sc Q rRMS) ::
            LogLine.scVerdict true :: (func args).2)) ∧
    (¬ eF_gun amp phase zcp > (scf : ℝ) * eF_sc Q rRMS →
      ∀ func, check_sc_limit_emission zcp scf rn func args =
        (falseRes,
          [LogLine.scQuantities (eF_gun amp phase zcp) (eF_sc Q rRMS),
           LogLine.scVerdict false])) ∧
    (eF_gun amp phase zcp = (scf : ℝ) * eF_sc Q rRMS →
      ∀ func, check_sc_limit_emission zcp scf rn func args =
        (falseRes,
          [LogLine.scQuantities (eF_gun amp phase zcp) (eF_sc Q rRMS),
           LogLine.scVerdict false])) ∧
    (phase = zcp → 0 < Q → 0 < rRMS → 0 ≤ scf →
      ∀ func, check_sc_limit_emission zcp scf rn func args =
        (falseRes,
          [LogLine.scQuantities (eF_gun amp phase zcp) (eF_sc Q rRMS),
           LogLine.scVerdict false])) ∧
    (Q = 0 → eF_gun amp phase zcp > 0 →
      ∀ func, check_sc_limit_emission zcp scf rn func args =
        ((func args).1,
          LogLine.scQuantities (eF_gun amp phase zcp) (eF_sc Q rRMS) ::
            LogLine.scVerdict true :: (func args).2)) := by
  refine ⟨?_, ?_,
    fun hc func =>
      check_sc_pass_eq zcp scf rn args bl amp phase rRMS Q h1 h2 h3 h4 h5 hc func,
    fun hc func =>
      check_sc_fail_eq zcp scf rn args bl amp phase rRMS Q h1 h2 h3 h4 h5 hc func,
    fun heq func => ?_, fun hphase hQ hr hscf func => ?_, fun hQ0 hgun func => ?_⟩
  · unfold eF_sc
    rw [div_div, div_div, ← mul_assoc]
  · unfold eF_gun deg2rad
    rw [show (phase : ℝ) * Real.pi / 180 - (zcp : ℝ) * Real.pi / 180 =
      ((phase : ℝ) - (zcp : ℝ)) * Real.pi / 180 by ring]
  · refine check_sc_fail_eq zcp scf rn args bl amp phase rRMS Q h1 h2 h3 h4 h5 ?_ func
    rw [heq]
    exact lt_irrefl _
  · have hg : eF_gun amp phase zcp = 0 := by
      subst hphase
      simp [eF_gun, sub_self, Real.sin_zero]
    have hQ' : (0 : ℝ) < (Q : ℝ) := by exact_mod_cast hQ
    have hr' : (0 : ℝ) < (rRMS : ℝ) := by exact_mod_cast hr
    have hsc : 0 < eF_sc Q rRMS := by
      have h85 : (0 : ℝ) < 8.85e-12 := by norm_num
      have hr2 : (0 : ℝ) < (rRMS : ℝ) ^ 2 := pow_pos hr' 2
      have h6 : (0 : ℝ) < 1e-6 := by norm_num
      exact mul_pos (div_pos (div_pos (div_pos hQ' h85) Real.pi_pos) hr2) h6
    have hscf' : (0 : ℝ) ≤ (scf : ℝ) := by exact_mod_cast hscf
    refine check_sc_fail_eq zcp scf rn args bl amp phase rRMS Q h1 h2 h3 h4 h5 ?_ func
    rw [hg]
    exact not_lt.mpr (mul_nonneg hscf' hsc.le)
  · subst hQ0
    have hs0 : eF_sc 0 rRMS = 0 := by
      unfold eF_sc
      norm_num
    refine check_sc_pass_eq zcp scf rn args bl amp phase rRMS 0 h1 h2 h3 h4 h5 ?_ func
    rw [hs0, mul_zero]
    exact hgun

/-- A concrete simulator handle whose gun phase sits exactly at the default
zero-crossing phase, with unit charge and radius. -/
def blSC : ImpactTBeamline :=
  mkBL [] []
    [("GunAmp", 5), ("GunPhase", default_zero_crossing_phase),
     (default_radius_name, 1), ("Qtotal", 1)]

/-- Witness for C4: at the zero-crossing phase with positive charge and
radius and the default safety factor, the predicate fails. -/
theorem C4_witness :
    check_sc_limit_emission default_zero_crossing_phase default_sc_factor
      default_radius_name act1 [Arg.beamline blSC] =
      (falseRes,
        [LogLine.scQuantities
          (eF_gun 5 default_zero_crossing_phase default_zero_crossing_phase)
          (eF_sc 1 1),
         LogLine.scVerdict false]) :=
  (C4_space_charge default_zero_crossing_phase default_sc_factor
    default_radius_name [Arg.beamline blSC] blSC 5 default_zero_crossing_phase 1 1
    rfl rfl rfl rfl rfl).2.2.2.2.2.1 rfl (by norm_num) (by norm_num)
    (by norm_num [default_sc_factor]) act1

/-- A concrete simulator handle whose fort-18 record ends at exactly the
target energy and whose fort-26 momenta are all nonnegative. -/
def blTen : ImpactTBeamline := mkBL [10] [] []

/-- Counterexample to C7 as stated: a completed evaluation of the
final-energy predicate emits no Pass/Fail verdict line at all, and a
completed evaluation of the no-negative-velocity predicate emits no
quantities line at all. -/
theorem C7_counterexample :
    ((final_energy 10 1 act1 [Arg.beamline blTen]).2.any
      fun l => isVerdictLine l) = false ∧
    (final_energy 10 1 act1 [Arg.beamline blTen]).1 = Res.val (RVal.pyInt 1) ∧
    ((no_negative_velocity act1 [Arg.beamline blTen]).2.any
      fun l => isQuantitiesLine l) = false ∧
    (no_negative_velocity act1 [Arg.beamline blTen]).1 = Res.val (RVal.pyInt 1) := by
  have hf := final_energy_pass_eq 10 1 [Arg.beamline blTen] blTen 10 rfl rfl
    (by rw [sub_self, abs_zero]; norm_num) act1
  have hn := no_negative_velocity_pass_eq [Arg.beamline blTen] blTen rfl rfl act1
  refine ⟨?_, ?_, ?_, ?_⟩
  · rw [hf]
    simp [act1, isVerdictLine]
  · rw [hf]
    rfl
  · rw [hn]
    simp [act1, isQuantitiesLine]
  · rw [hn]
    rfl

/-- C7 (amended): the space-charge and monotonic-energy predicates emit one
line with their computed quantities and one Pass/Fail verdict line; the
no-negative-velocity predicate emits only its verdict line (no quantities
line of its own), and the final-energy predicate emits only its quantities
line (no Pass/Fail verdict line of its own). -/
theorem C7_logging_amended (args : List Arg) (bl : ImpactTBeamline)
    (h1 : get_beamline_instance args = some bl) :
    (∀ (zcp scf : ℚ) (rn : String) (amp phase rRMS Q : ℚ) (func : PyFun),
      bl.settings.lookup "GunAmp" = some amp →
      bl.settings.lookup "GunPhase" = some phase →
      bl.settings.lookup rn = some rRMS →
      bl.settings.lookup "Qtotal" = some Q →
      ((check_sc_limit_emission zcp scf rn func args).2.any
        fun l => isQuantitiesLine l) = true ∧
      ((check_sc_limit_emission zcp scf rn func args).2.any
        fun l => isVerdictLine l) = true) ∧
    (∀ (z_pos : List ℚ) (tol : ℚ) (func : PyFun),
      ((monotonic_energy_gain z_pos tol func args).2.any
        fun l => isQuantitiesLine l) = true ∧
      ((monotonic_energy_gain z_pos tol func args).2.any
        fun l => isVerdictLine l) = true) ∧
    (∀ func, ((bl.getFort 26).avgPz.any fun p => decide (p < 0)) = true →
      (no_negative_velocity func args).2 = [LogLine.negVelVerdict false]) ∧
    (∀ func, ((bl.getFort 26).avgPz.any fun p => decide (p < 0)) = false →
      (no_negative_velocity func args).2 =
        LogLine.negVelVerdict true :: (func args).2) ∧
    (∀ (fke tol m : ℚ) (func : PyFun),
      (bl.getFort 18).KE.getLast? = some m → ¬ |m - fke| < tol →
      (final_energy fke tol func args).2 = [LogLine.finalQuantities m fke] ∧
      ((final_energy fke tol func args).2.any fun l => isVerdictLine l) = false) ∧
    (∀ (fke tol m : ℚ) (func : PyFun),
      (bl.getFort 18).KE.getLast? = some m → |m - fke| < tol →
      (final_energy fke tol func args).2 =
        LogLine.finalQuantities m fke :: (func args).2) := by
  refine ⟨fun zcp scf rn amp phase rRMS Q func h2 h3 h4 h5 => ?_,
    fun z_pos tol func => ?_, fun func hneg => ?_, fun func hneg => ?_,
    fun fke tol m func h2 hc => ?_, fun fke tol m func h2 hc => ?_⟩
  · by_cases hc : eF_gun amp phase zcp > (scf : ℝ) * eF_sc Q rRMS
    · rw [check_sc_pass_eq zcp scf rn args bl amp phase rRMS Q h1 h2 h3 h4 h5 hc func]
      simp [isQuantitiesLine, isVerdictLine]
    · rw [check_sc_fail_eq zcp scf rn args bl amp phase rRMS Q h1 h2 h3 h4 h5 hc func]
      simp [isQuantitiesLine, isVerdictLine]
  · cases hcond : ((npDiff (bl.getFort_z_pos 18 (z_pos.insertionSort (· ≤ ·))).KE).all
        fun d => decide (d > -tol)) with
    | false =>
      rw [monotonic_fail_eq z_pos tol args bl h1 hcond func]
      simp [isQuantitiesLine, isVerdictLine]
    | true =>
      rw [monotonic_pass_eq z_pos tol args bl h1 hcond func]
      simp [isQuantitiesLine, isVerdictLine]
  · rw [no_negative_velocity_fail_eq args bl h1 hneg func]
  · rw [no_negative_velocity_pass_eq args bl h1 hneg func]
  · rw [final_energy_fail_eq fke tol args bl m h1 h2 hc func]
    simp [isVerdictLine]
  · rw [final_energy_pass_eq fke tol args bl m h1 h2 hc func]

/-- Witness for C7 (amended): a passing final-energy evaluation logs exactly
its quantities line ahead of the inner stage's output, with no verdict. -/
theorem C7_witness :
    (final_energy 10 1 act1 [Arg.beamline blTen]).2 =
      LogLine.finalQuantities 10 10 :: (act1 [Arg.beamline blTen]).2 :=
  (C7_logging_amended [Arg.beamline blTen] blTen rfl).2.2.2.2.2 10 1 10 act1 rfl
    (by rw [sub_self, abs_zero]; norm_num)

end ManageBeamlineSpec
